import Mathlib

/-!
Shallow embedding of the ESP32 display backend (`api/main.py`) for
verification of its pairing, session-authorization and render-pipeline
behaviour.

Modelling conventions:

* SQLite tables become Lean lists of row structures; `SELECT ... WHERE k=?
  ... fetchone()` becomes `List.find?`, `UPDATE ... WHERE` becomes
  `List.map` guarded on the key, `INSERT` appends, `INSERT OR REPLACE`
  removes the conflicting rows and appends.
* `datetime` values are integer Unix timestamps (seconds); the ISO-format
  round trip in the code preserves ordering, which is all the code uses.
* Nondeterministic draws (`secrets.token_urlsafe`, `secrets.randbelow`) and
  the external HTTP fetches are passed to each endpoint as explicit
  parameters; freshness of the draws becomes a hypothesis where needed.
* JSON parameter values (`params: Dict[str, Any]`) become the `JVal`
  inductive; numeric values from upstream JSON are modelled as integers
  (price in whole dollars, 24h change in hundredths of a percent), which
  is exact on every value the claims touch.
* A raised Python exception inside the render `try` block becomes
  `Except.error msg` where `msg` models `str(e)`.
* HTTP endpoints return `DB × Except HTTPError out`: a raise before
  `conn.commit()` leaves the database unchanged, which the model expresses
  by returning the input `DB` with the error.
-/

/-- A raised `HTTPException(status_code, detail)`. -/
structure HTTPError where
  status : Nat
  detail : String
deriving DecidableEq, Repr

/-- JSON-like parameter values stored in `params_json`. -/
inductive JVal where
  | jnull : JVal
  | jbool : Bool → JVal
  | jint : Int → JVal
  | jstr : String → JVal
deriving DecidableEq, Repr

/-- A JSON object, the model of a `params` dict. -/
abbrev JObj := List (String × JVal)

/-- `params.get(key, default)` on a dict. -/
def jget (o : JObj) (k : String) (dflt : JVal) : JVal :=
  match o.find? (fun p => p.1 == k) with
  | some p => p.2
  | none => dflt

/-- Python `str(v)` on a JSON value (never raises). -/
def pyStr : JVal → String
  | .jnull => "None"
  | .jbool true => "True"
  | .jbool false => "False"
  | .jint n => toString n
  | .jstr s => s

/-- Python's whitespace set for ASCII text, as stripped by `str.strip()`. -/
def pyIsSpace (c : Char) : Bool :=
  c = ' ' || c = '\t' || c = '\n' || c = '\r' || c = Char.ofNat 11 || c = Char.ofNat 12

/-- Python `s.strip()`: drop whitespace from both ends. -/
def pyStrip (s : String) : String :=
  ((s.data.dropWhile pyIsSpace).reverse.dropWhile pyIsSpace).reverse.asString

/-- Python `s[:n]` on a string. -/
def strTake (s : String) (n : Nat) : String :=
  (s.data.take n).asString

/-- Digits-only check used by the model of `int(str)`. -/
def allDigits (cs : List Char) : Bool :=
  cs.all (fun c => c.isDigit) && !cs.isEmpty

/-- Parse an optionally signed decimal integer the way Python
`int(str)` does (surrounding whitespace allowed), `none` on failure. -/
def parseIntPy (s : String) : Option Int :=
  let t := pyStrip s
  match t.data with
  | '-' :: rest => if allDigits rest then some (-(rest.asString.toNat!)) else none
  | '+' :: rest => if allDigits rest then some (rest.asString.toNat!) else none
  | cs => if allDigits cs then some (cs.asString.toNat!) else none

/-- Python `int(v)` on a JSON value: identity on ints, 0/1 on bools,
decimal parse on strings, raising (modelled as `.error` carrying the
exception text) otherwise. -/
def pyInt : JVal → Except String Int
  | .jint n => .ok n
  | .jbool true => .ok 1
  | .jbool false => .ok 0
  | .jstr s =>
      match parseIntPy s with
      | some n => .ok n
      | none => .error ("invalid literal for int() with base 10: " ++ s)
  | .jnull => .error "int() argument must be a string or a number, not NoneType"

/-- Loop of `[msg[i:i+w] for i in range(0, len(msg), w)]` for `w > 0`.
The fuel argument only bounds the iteration count for structural
recursion: each step shortens the list by `w ≥ 1`, so fuel equal to the
initial length (as supplied by `sliceChunks`) is never exhausted. -/
def sliceChunksGo (w : Nat) : Nat → List Char → List (List Char)
  | _, [] => []
  | 0, _ => []
  | fuel + 1, cs => cs.take w :: sliceChunksGo w fuel (cs.drop w)

/-- `[msg[i:i+w] for i in range(0, len(msg), w)]` for `w > 0`:
consecutive fixed-width chunks by column position, `[]` on empty input.
Only invoked with `w > 0` (the caller models Python `range`'s rejection
of a zero step separately). -/
def sliceChunks (w : Nat) (cs : List Char) : List (List Char) :=
  sliceChunksGo w cs.length cs

/-- Thousands-separated rendering of an integer, the model of
`f"{price:,.0f}"` on an integral value. -/
def fmtThousands (n : Int) : String :=
  let ds := (toString n.natAbs).data
  let grouped := (List.intercalate [','] (sliceChunks 3 ds.reverse)).reverse
  (if n < 0 then "-" else "") ++ grouped.asString

/-- Two-decimal rendering of a value held in hundredths, the model of
`f"{chg:.2f}"` on a value that is an exact multiple of 0.01. -/
def fmtCenti (c : Int) : String :=
  let a := c.natAbs
  let frac := a % 100
  let fracStr := (if frac < 10 then "0" else "") ++ toString frac
  (if c < 0 then "-" else "") ++ toString (a / 100) ++ "." ++ fracStr

/-- `PAIR_TTL_SECONDS` (default configuration). -/
def PAIR_TTL_SECONDS : Int := 300

/-- `SESSION_TTL_MINUTES` (default configuration). -/
def SESSION_TTL_MINUTES : Int := 30

/-- Number of pair-code draws `pair_start` attempts (`range(10)`). -/
def PAIR_CODE_ATTEMPTS : Nat := 10

/-- A row of the `device` table. -/
structure DeviceRow where
  id : String
  hardware_uid : String
  device_token : String
  created_at : Int
deriving DecidableEq, Repr

/-- A row of the `pairing` table; `claimed_at = none` means unclaimed. -/
structure PairingRow where
  pair_code : String
  device_id : String
  expires_at : Int
  claimed_at : Option Int
deriving DecidableEq, Repr

/-- A row of the `session` table. -/
structure SessionRow where
  session_token : String
  device_id : String
  expires_at : Int
deriving DecidableEq, Repr

/-- A row of the `module` table (`params_json` decoded). -/
structure ModuleRow where
  device_id : String
  mtype : String
  params : JObj
  updated_at : Int
deriving DecidableEq, Repr

/-- The database state. -/
structure DB where
  device : List DeviceRow
  pairing : List PairingRow
  session : List SessionRow
  moduleTbl : List ModuleRow
deriving DecidableEq, Repr

/-- `get_session_device_id` (`api/main.py` lines 118-127): `if not sess`
rejects both a missing cookie and an empty one; then lookup and expiry
check. -/
def get_session_device_id (db : DB) (now : Int) (sess : Option String) :
    Except HTTPError String :=
  match sess with
  | none => .error ⟨401, "No session"⟩
  | some s =>
    if s = "" then .error ⟨401, "No session"⟩
    else
      match db.session.find? (fun r => r.session_token == s) with
      | none => .error ⟨401, "Invalid session"⟩
      | some row =>
        if row.expires_at < now then .error ⟨401, "Session expired"⟩
        else .ok row.device_id

/-- Decoded body of a successful CoinGecko response: `bitcoin.usd` in
whole dollars and `bitcoin.usd_24h_change` in hundredths of a percent
(integer model of the floats; exact on the values the claims use). -/
structure BtcRaw where
  usd : Int
  chg : Int
deriving DecidableEq, Repr

/-- Value cached/returned by `get_btc_price`. -/
structure BtcData where
  price_usd : Int
  change_24h : Int
deriving DecidableEq, Repr

/-- `get_btc_price` (`api/main.py` lines 141-164) with the cache read and
the upstream HTTP exchange made explicit: a cache hit short-circuits;
otherwise any failure of the fetch/parse (`except Exception`) degrades to
the fixed fallback `{"price_usd": 50000, "change_24h": 0.0}` and is never
re-raised. -/
def get_btc_price (cached : Option BtcData) (fetch : Except String BtcRaw) :
    BtcData :=
  match cached with
  | some v => v
  | none =>
    match fetch with
    | .ok raw => ⟨raw.usd, raw.chg⟩
    | .error _ => ⟨50000, 0⟩

/-- Decoded result of a successful weather double-fetch: current
temperature (°C), wind speed, weather code (integer models of the floats)
and the geocoder's resolved city name when present. -/
structure WxRaw where
  temp : Int
  wind : Int
  cond : Int
  name : Option String
deriving DecidableEq, Repr

/-- Value cached/returned by `get_weather`. -/
structure WxData where
  temp_c : Int
  windspeed_kph : Int
  condition_code : Int
  city : String
deriving DecidableEq, Repr

/-- `str(e)` for the `AttributeError` that `city.lower()` raises on a
non-string value (the quotes Python puts around the type name are
omitted; only the truncated prefix of this text ever reaches a claim). -/
def pyLowerAttrError : JVal → String
  | .jnull => "NoneType object has no attribute lower"
  | .jbool _ => "bool object has no attribute lower"
  | .jint _ => "int object has no attribute lower"
  | .jstr _ => ""

/-- `get_weather` (`api/main.py` lines 166-206) with the cache read and
the two upstream exchanges collapsed into one explicit outcome. The
cache-key line `key = f"wx_{city.lower()}"` runs BEFORE the function's
`try` and before the cache read, so a non-string city raises an
`AttributeError` out of `get_weather` (to be caught at the caller's
render boundary). For a string city: a cache hit short-circuits, and
every failure inside the `try` (fetch errors, "city not found") degrades
to the neutral defaults `{20, 0, 0, city}` without re-raising. -/
def get_weather (cityJ : JVal) (cached : Option WxData)
    (fetch : Except String WxRaw) : Except String WxData :=
  match cityJ with
  | .jstr s =>
    .ok (match cached with
      | some v => v
      | none =>
        match fetch with
        | .ok raw => ⟨raw.temp, raw.wind, raw.cond, raw.name.getD s⟩
        | .error _ => ⟨20, 0, 0, s⟩)
  | other => .error (pyLowerAttrError other)

/-- The external-world inputs of one `device_config` request: the current
cache contents as seen by `cache_get` (`none` = absent or expired) and
the outcome each upstream exchange would have. -/
structure Env where
  btcCached : Option BtcData
  btcFetch : Except String BtcRaw
  wxCached : Option WxData
  wxFetch : Except String WxRaw
deriving Repr

/-- The `render` object plus `next_poll_sec` of a `device_config`
response. -/
structure RenderOut where
  lines : List String
  ttl : Nat
  next_poll_sec : Nat
deriving DecidableEq, Repr

/-- The `text` branch of `device_config` (`api/main.py` lines 364-371):
trim the message (`str(...).strip()`), substitute the default when empty,
slice into `max_chars`-wide chunks by column, cap at 4 lines. `int(...)`
may raise; `range(0, len, 0)` raises; a negative step yields an empty
`range`, hence no lines. -/
def renderText (params : JObj) : Except String RenderOut :=
  let msg0 := pyStrip (pyStr (jget params "message" (.jstr "Hello from ESP32!")))
  let msg := if msg0 = "" then "Hello from ESP32!" else msg0
  match pyInt (jget params "max_chars" (.jint 16)) with
  | .error e => .error e
  | .ok w =>
    if w = 0 then .error "range() arg 3 must not be zero"
    else if w < 0 then .ok ⟨[], 60, 15⟩
    else .ok ⟨((sliceChunks w.toNat msg.data).map List.asString).take 4, 60, 15⟩

/-- The `btc_price` branch of `device_config` (`api/main.py` lines
373-380): price with thousands separators and no decimals, change signed
with an explicit `+` for non-negative values. -/
def renderBtc (cached : Option BtcData) (fetch : Except String BtcRaw) :
    Except String RenderOut :=
  let d := get_btc_price cached fetch
  let sign := if 0 ≤ d.change_24h then "+" else ""
  .ok ⟨["BTC $" ++ fmtThousands d.price_usd,
        "24h " ++ sign ++ fmtCenti d.change_24h ++ "%"], 30, 15⟩

/-- The `weather` branch of `device_config` (`api/main.py` lines
382-389). The `AttributeError` a non-string configured city raises out
of `get_weather` propagates here as `.error`, headed for the render
boundary. The degree sign appears in the source as the two bytes of its
UTF-8 mojibake and is reproduced as such. -/
def renderWeather (params : JObj) (cached : Option WxData)
    (fetch : Except String WxRaw) : Except String RenderOut :=
  let cityJ := jget params "city" (.jstr "Portland,US")
  match get_weather cityJ cached fetch with
  | .error e => .error e
  | .ok d =>
    .ok ⟨[d.city,
          toString d.temp_c ++ "Â°C  Wind " ++ toString d.windspeed_kph],
         300, 60⟩

/-- The dispatch on module type inside the render `try` block
(`api/main.py` lines 363-390). An unrecognized type takes no branch and
falls through with the initial `lines = []`, `ttl = 15`,
`next_poll = 10`. -/
def renderModuleBody (mtype : String) (params : JObj) (env : Env) :
    Except String RenderOut :=
  if mtype = "text" then renderText params
  else if mtype = "btc_price" then renderBtc env.btcCached env.btcFetch
  else if mtype = "weather" then renderWeather params env.wxCached env.wxFetch
  else .ok ⟨[], 15, 10⟩

/-- The `except Exception` boundary of the render block (`api/main.py`
lines 391-395): any exception becomes the 2-line error render with the
diagnostic truncated to 18 characters and the short retry pair. -/
def renderBoundary (r : Except String RenderOut) : RenderOut :=
  match r with
  | .ok v => v
  | .error e => ⟨["Err fetching data", strTake e 18], 5, 5⟩

/-- `device_config` (`api/main.py` lines 333-402): authenticate the
device token by lookup, serve the fixed unconfigured default when no
module row exists, otherwise render the stored module behind the
exception boundary. Read-only: the database is not modified. -/
def device_config (db : DB) (env : Env) (device_token : String) :
    Except HTTPError RenderOut :=
  match db.device.find? (fun d => d.device_token == device_token) with
  | none => .error ⟨401, "Invalid device token"⟩
  | some drow =>
    match db.moduleTbl.find? (fun m => m.device_id == drow.id) with
    | none => .ok ⟨["Not configured", "Pick module in web UI"], 15, 10⟩
    | some mrow => .ok (renderBoundary (renderModuleBody mrow.mtype mrow.params env))

/-- `INSERT INTO module ... ON CONFLICT(device_id) DO UPDATE SET ...`:
update the conflicting row in place, else append. -/
def upsertModule (rows : List ModuleRow) (d mtype : String) (params : JObj)
    (now : Int) : List ModuleRow :=
  if rows.any (fun r => r.device_id == d) then
    rows.map (fun r => if r.device_id == d then ⟨d, mtype, params, now⟩ else r)
  else rows ++ [⟨d, mtype, params, now⟩]

/-- `set_module` (`api/main.py` lines 309-331): session auth, subject
match against the path `device_id`, module-type allowlist, then upsert.
Every rejection happens before any write. -/
def set_module (db : DB) (now : Int) (device_id : String) (mtype : String)
    (params : JObj) (sess : Option String) : DB × Except HTTPError Unit :=
  match get_session_device_id db now sess with
  | .error e => (db, .error e)
  | .ok sess_device_id =>
    if sess_device_id ≠ device_id then
      (db, .error ⟨403, "Session not authorized for this device"⟩)
    else if ¬(mtype = "text" ∨ mtype = "btc_price" ∨ mtype = "weather") then
      (db, .error ⟨400, "Unsupported module type"⟩)
    else
      ({db with moduleTbl := upsertModule db.moduleTbl device_id mtype params now},
       .ok ())

/-- Response body of `POST /pair/claim`. -/
structure PairClaimOut where
  device_id : String
deriving DecidableEq, Repr

/-- `pair_claim` (`api/main.py` lines 261-307). `sessTok` is the
`generate_token(24)` draw. All three validation failures raise before any
write, so they return the database unchanged; on success the session row
is inserted and `claimed_at` is set on the rows carrying the code, in one
committed transaction. -/
def pair_claim (db : DB) (now : Int) (sessTok : String) (code : String) :
    DB × Except HTTPError PairClaimOut :=
  match db.pairing.find? (fun p => p.pair_code == code) with
  | none => (db, .error ⟨400, "Invalid code"⟩)
  | some row =>
    match row.claimed_at with
    | some _ => (db, .error ⟨400, "Code already claimed"⟩)
    | none =>
      if row.expires_at < now then (db, .error ⟨400, "Code expired"⟩)
      else
        ({db with
            session := db.session ++
              [⟨sessTok, row.device_id, now + SESSION_TTL_MINUTES * 60⟩],
            pairing := db.pairing.map (fun p =>
              if p.pair_code == code then {p with claimed_at := some now} else p)},
         .ok ⟨row.device_id⟩)

/-- Response body of `POST /pair/start`. -/
structure PairStartOut where
  pair_code : String
  device_token : String
  device_id : String
  expires_in : Int
deriving DecidableEq, Repr

/-- The `for attempt in range(10)` loop of `pair_start`: return the first
drawn code with no row at all in the `pairing` table (`SELECT 1 FROM
pairing WHERE pair_code=?`), `none` when every draw collides. -/
def firstFreeCode (pairing : List PairingRow) : List String → Option String
  | [] => none
  | c :: rest =>
    if pairing.any (fun p => p.pair_code == c) then firstFreeCode pairing rest
    else some c

/-- `INSERT OR REPLACE INTO pairing`: drop any row with the same primary
key, append the new row. -/
def insertOrReplacePairing (rows : List PairingRow) (r : PairingRow) :
    List PairingRow :=
  rows.filter (fun p => !(p.pair_code == r.pair_code)) ++ [r]

/-- The `device_id` resolved by `pair_start`'s find-or-create step:
the id of the row matching `hardware_uid` when one exists, else the fresh
`generate_id("dev")` draw. -/
def pairStartDeviceId (db : DB) (freshId hw : String) : String :=
  match db.device.find? (fun d => d.hardware_uid == hw) with
  | some r => r.id
  | none => freshId

/-- The device table after `pair_start`'s find-or-create step: unchanged
when the `hardware_uid` is known, else extended with the fresh row
(inserted with an empty token, as in the code). -/
def pairStartBaseRows (db : DB) (now : Int) (freshId hw : String) :
    List DeviceRow :=
  match db.device.find? (fun d => d.hardware_uid == hw) with
  | some _ => db.device
  | none => db.device ++ [⟨freshId, hw, "", now⟩]

/-- `UPDATE device SET device_token=? WHERE id=?`. -/
def rotateToken (rows : List DeviceRow) (device_id freshTok : String) :
    List DeviceRow :=
  rows.map (fun d =>
    if d.id == device_id then {d with device_token := freshTok} else d)

/-- `pair_start` (`api/main.py` lines 209-259). `freshId` models the
`generate_id("dev")` draw, `freshTok` the `generate_token(24)` draw and
`codes` the successive `generate_code()` draws (one per loop iteration,
so `codes.length = PAIR_CODE_ATTEMPTS` on the real path). When every draw
collides, `HTTPException(500, "Failed to allocate pair code")` is caught
by the function's own `except Exception` and resurfaced as
`HTTPException(500, "Database error")`; the transaction is never
committed, so the database is unchanged. -/
def pair_start (db : DB) (now : Int) (freshId freshTok : String)
    (codes : List String) (hw : String) : DB × Except HTTPError PairStartOut :=
  let device_id := pairStartDeviceId db freshId hw
  let devRows := rotateToken (pairStartBaseRows db now freshId hw)
    device_id freshTok
  match firstFreeCode db.pairing codes with
  | none => (db, .error ⟨500, "Database error"⟩)
  | some code =>
    ({db with
        device := devRows,
        pairing := insertOrReplacePairing db.pairing
          ⟨code, device_id, now + PAIR_TTL_SECONDS, none⟩},
     .ok ⟨code, freshTok, device_id, PAIR_TTL_SECONDS⟩)

/-- The `ttl` assigned in the `btc_price` branch (`api/main.py` line
379); it is the TTL tagged on every btc render, including the
upstream-failure fallback path, and is the failure-path TTL bound of the
btc module. -/
def BTC_RENDER_TTL : Nat := 30

/-- One state-mutating request of the service: the three endpoints that
write to the database (`device_config` and `healthz` are read-only). All
request inputs, draws and clock values are arbitrary. -/
inductive Step : DB → DB → Prop where
  | start (db : DB) (now : Int) (freshId freshTok : String)
      (codes : List String) (hw : String) :
      Step db (pair_start db now freshId freshTok codes hw).1
  | claim (db : DB) (now : Int) (sessTok code : String) :
      Step db (pair_claim db now sessTok code).1
  | setmod (db : DB) (now : Int) (device_id mtype : String) (params : JObj)
      (sess : Option String) :
      Step db (set_module db now device_id mtype params sess).1

/-- Any interleaving of later requests. -/
def Steps : DB → DB → Prop := Relation.ReflTransGen Step

/-- A concrete populated database used by the witnesses: four paired
devices; one unclaimed live pairing, one claimed pairing, one expired
pairing; one live session for `dev_1`; a btc module on `dev_2`, a text
module with a malformed `max_chars` on `dev_3` and a weather module with
a non-string city on `dev_4`. -/
def dbEx : DB :=
  { device := [⟨"dev_1", "hw1", "tokA", 0⟩, ⟨"dev_2", "hw2", "tokB", 0⟩,
               ⟨"dev_3", "hw3", "tokC", 0⟩, ⟨"dev_4", "hw4", "tokD", 0⟩],
    pairing := [⟨"111111", "dev_1", 1000, none⟩,
                ⟨"222222", "dev_1", 1000, some 50⟩,
                ⟨"333333", "dev_2", 10, none⟩],
    session := [⟨"sessA", "dev_1", 1000⟩],
    moduleTbl := [⟨"dev_2", "btc_price", [], 0⟩,
                  ⟨"dev_3", "text", [("max_chars", JVal.jstr "abc")], 0⟩,
                  ⟨"dev_4", "weather", [("city", JVal.jint 5)], 0⟩] }

/-- A fully degraded external world: empty caches, both upstreams down. -/
def envDown : Env := ⟨none, .error "down", none, .error "down"⟩

/-- Ten distinct pair-code draws used by the capacity witness. -/
def codesEx : List String :=
  ["000000", "000001", "000002", "000003", "000004",
   "000005", "000006", "000007", "000008", "000009"]

/-- A database whose pairing table holds an unclaimed, unexpired row for
every code in `codesEx`: every draw collides. -/
def dbCap : DB :=
  { device := [], pairing := codesEx.map (fun c => ⟨c, "dev_1", 1000, none⟩),
    session := [], moduleTbl := [] }

/-- C9: a device whose token authenticates but that has no stored module
config receives the fixed unconfigured default — exactly the two lines
"Not configured" / "Pick module in web UI" with ttl 15 and next_poll_sec
10 — as a success, not an error. -/
theorem C9_unconfigured_default (db : DB) (env : Env) (tok : String)
    (drow : DeviceRow)
    (hdev : db.device.find? (fun d => d.device_token == tok) = some drow)
    (hmod : db.moduleTbl.find? (fun m => m.device_id == drow.id) = none) :
    device_config db env tok =
      .ok ⟨["Not configured", "Pick module in web UI"], 15, 10⟩ := by
  simp only [device_config, hdev, hmod]

theorem C9_witness :
    device_config dbEx envDown "tokA" =
      .ok ⟨["Not configured", "Pick module in web UI"], 15, 10⟩ :=
  C9_unconfigured_default dbEx envDown "tokA" ⟨"dev_1", "hw1", "tokA", 0⟩
    (by decide) (by decide)

/-- C4: with the btc cache empty and the upstream price fetch failing,
`device_config` on a `btc_price` module still succeeds and returns the
render built from the fixed fallback (price 50000, change 0.0): lines
"BTC $50,000" / "24h +0.00%", all non-empty, with ttl equal to (hence at
most) the btc failure-path TTL constant. -/
theorem C4_btc_upstream_failure (db : DB) (env : Env) (tok msg : String)
    (drow : DeviceRow) (mrow : ModuleRow)
    (hdev : db.device.find? (fun d => d.device_token == tok) = some drow)
    (hmod : db.moduleTbl.find? (fun m => m.device_id == drow.id) = some mrow)
    (htype : mrow.mtype = "btc_price")
    (hcache : env.btcCached = none)
    (hfetch : env.btcFetch = .error msg) :
    device_config db env tok = .ok ⟨["BTC $50,000", "24h +0.00%"], 30, 15⟩ ∧
    (∀ l ∈ ["BTC $50,000", "24h +0.00%"], l ≠ "") ∧
    30 ≤ BTC_RENDER_TTL := by
  refine ⟨?_, by decide, by decide⟩
  have hb : renderBtc none (Except.error msg) =
      .ok ⟨["BTC $50,000", "24h +0.00%"], 30, 15⟩ := by
    unfold renderBtc
    rw [show get_btc_price none (Except.error msg) = ⟨50000, 0⟩ from rfl]
    rfl
  simp only [device_config, hdev, hmod]
  unfold renderModuleBody
  rw [htype, hcache, hfetch,
    if_neg (by decide : ¬("btc_price" : String) = "text"), if_pos rfl, hb]
  rfl

theorem C4_witness :
    device_config dbEx envDown "tokB" =
      .ok ⟨["BTC $50,000", "24h +0.00%"], 30, 15⟩ :=
  (C4_btc_upstream_failure dbEx envDown "tokB" "down"
    ⟨"dev_2", "hw2", "tokB", 0⟩ ⟨"dev_2", "btc_price", [], 0⟩
    (by decide) (by decide) rfl rfl rfl).1

/-- C3: whenever rendering a stored module of a recognized type (text,
btc_price or weather) raises, `device_config` still succeeds: the
exception is absorbed at the render boundary into exactly two lines — a
generic first line and the exception text truncated to at most 18
characters — with the short ttl/next_poll pair 5/5. -/
theorem C3_render_exception_boundary (db : DB) (env : Env) (tok e : String)
    (drow : DeviceRow) (mrow : ModuleRow)
    (hdev : db.device.find? (fun d => d.device_token == tok) = some drow)
    (hmod : db.moduleTbl.find? (fun m => m.device_id == drow.id) = some mrow)
    (htype : mrow.mtype = "text" ∨ mrow.mtype = "btc_price" ∨
      mrow.mtype = "weather")
    (hraise : renderModuleBody mrow.mtype mrow.params env = .error e) :
    device_config db env tok =
      .ok ⟨["Err fetching data", strTake e 18], 5, 5⟩ ∧
    (strTake e 18).length ≤ 18 := by
  constructor
  · simp only [device_config, hdev, hmod, hraise]
    rfl
  · calc (strTake e 18).length = 18 ⊓ e.data.length := by
          simp [strTake, List.length_take]
      _ ≤ 18 := inf_le_left

theorem C3_witness :
    (device_config dbEx envDown "tokC" =
        .ok ⟨["Err fetching data", "invalid literal fo"], 5, 5⟩ ∧
      ("invalid literal fo" : String).length ≤ 18) ∧
    device_config dbEx envDown "tokD" =
      .ok ⟨["Err fetching data", "int object has no "], 5, 5⟩ := by
  have h := C3_render_exception_boundary dbEx envDown "tokC"
    "invalid literal for int() with base 10: abc"
    ⟨"dev_3", "hw3", "tokC", 0⟩
    ⟨"dev_3", "text", [("max_chars", JVal.jstr "abc")], 0⟩
    (by decide) (by decide) (by decide) rfl
  have hwx := C3_render_exception_boundary dbEx envDown "tokD"
    "int object has no attribute lower"
    ⟨"dev_4", "hw4", "tokD", 0⟩
    ⟨"dev_4", "weather", [("city", JVal.jint 5)], 0⟩
    (by decide) (by decide) (by decide) rfl
  exact ⟨⟨h.1.trans (by rfl), by decide⟩, hwx.1.trans (by rfl)⟩

/-- C5: a session credential that resolves to device A, used against
target device B ≠ A, is rejected with the 403 subject-mismatch error and
leaves the whole database (in particular B's module config) unchanged;
and `set_module` succeeds only when the session's device equals the path
device. -/
theorem C5_session_subject_mismatch (db : DB) (now : Int)
    (A B sessTok mtype : String) (params : JObj)
    (hsess : get_session_device_id db now (some sessTok) = .ok A)
    (hne : B ≠ A) :
    set_module db now B mtype params (some sessTok) =
      (db, .error ⟨403, "Session not authorized for this device"⟩) ∧
    (∀ (db2 : DB) (now2 : Int) (did mt : String) (ps : JObj)
        (s : Option String) (db2' : DB),
      set_module db2 now2 did mt ps s = (db2', .ok ()) →
      get_session_device_id db2 now2 s = .ok did) := by
  constructor
  · have hAB : A ≠ B := Ne.symm hne
    simp [set_module, hsess, hAB]
  · intro db2 now2 did mt ps s db2' h
    unfold set_module at h
    cases hs : get_session_device_id db2 now2 s with
    | error e =>
      simp only [hs] at h
      exact absurd (congrArg Prod.snd h) (by simp)
    | ok did' =>
      simp only [hs] at h
      by_cases hd : did' = did
      · rw [hd]
      · simp [hd] at h

theorem C5_witness :
    set_module dbEx 100 "dev_2" "text" [] (some "sessA") =
      (dbEx, .error ⟨403, "Session not authorized for this device"⟩) :=
  (C5_session_subject_mismatch dbEx 100 "dev_1" "dev_2" "sessA" "text" []
    rfl (by decide)).1

theorem sliceChunksGo_nil (w fuel : Nat) : sliceChunksGo w fuel [] = [] := by
  cases fuel <;> rfl

theorem sliceChunksGo_cons (w fuel : Nat) (cs : List Char) (h : cs ≠ []) :
    sliceChunksGo w (fuel + 1) cs =
      cs.take w :: sliceChunksGo w fuel (cs.drop w) := by
  cases cs with
  | nil => exact absurd rfl h
  | cons a l => rfl

/-- On a 40-character message, 16-wide column slicing yields exactly the
three consecutive slices. -/
theorem sliceChunks_len40 (cs : List Char) (h : cs.length = 40) :
    sliceChunks 16 cs =
      [cs.take 16, (cs.drop 16).take 16, (cs.drop 16).drop 16] := by
  have h1 : cs ≠ [] := by intro e; rw [e] at h; simp at h
  have hd1 : (cs.drop 16).length = 24 := by simp [List.length_drop, h]
  have hd2 : ((cs.drop 16).drop 16).length = 8 := by
    simp only [List.length_drop]
    omega
  have h2 : cs.drop 16 ≠ [] := by intro e; rw [e] at hd1; simp at hd1
  have h3 : (cs.drop 16).drop 16 ≠ [] := by intro e; rw [e] at hd2; simp at hd2
  have h4 : ((cs.drop 16).drop 16).drop 16 = [] := by
    have : (((cs.drop 16).drop 16).drop 16).length = 0 := by
      simp only [List.length_drop]
      omega
    exact List.eq_nil_of_length_eq_zero this
  unfold sliceChunks
  rw [h]
  rw [show (40 : Nat) = 39 + 1 from rfl, sliceChunksGo_cons _ _ _ h1]
  rw [show (39 : Nat) = 38 + 1 from rfl, sliceChunksGo_cons _ _ _ h2]
  rw [show (38 : Nat) = 37 + 1 from rfl, sliceChunksGo_cons _ _ _ h3]
  rw [h4, sliceChunksGo_nil]
  rw [show List.take 16 (List.drop 16 (List.drop 16 cs)) =
        List.drop 16 (List.drop 16 cs) from
      List.take_of_length_le (by rw [hd2]; omega)]

/-- Evaluation of the `text` branch for any positive configured width:
trim, fall back on empty, slice by column, cap at 4. -/
theorem renderText_eq (params : JObj) (m : String) (w : Int)
    (hm : jget params "message" (.jstr "Hello from ESP32!") = .jstr m)
    (hw : jget params "max_chars" (.jint 16) = .jint w)
    (hpos : 0 < w) :
    renderText params =
      .ok ⟨((sliceChunks w.toNat
          (if pyStrip m = "" then "Hello from ESP32!" else pyStrip m).data).map
            List.asString).take 4, 60, 15⟩ := by
  have h0 : ¬(w = 0) := by omega
  have h1 : ¬(w < 0) := by omega
  simp only [renderText, hm, hw, pyStr, pyInt, h0, h1, if_false]

/-- C6: the text module trims the message, substitutes the default when
the trimmed message is empty, slices by fixed column position at the
configured width — whatever positive `max_chars` the config carries,
defaulting to 16 when absent — and caps the output at 4 lines; a message
of trimmed length 40 at width 16 yields exactly 3 lines of lengths 16,
16 and 8 whose concatenation is the trimmed message. -/
theorem C6_text_fixed_column_slicing (m : String) :
    (∀ (params : JObj) (w : Int),
      jget params "message" (.jstr "Hello from ESP32!") = .jstr m →
      jget params "max_chars" (.jint 16) = .jint w →
      0 < w →
      renderText params =
        .ok ⟨((sliceChunks w.toNat
            (if pyStrip m = "" then "Hello from ESP32!"
             else pyStrip m).data).map List.asString).take 4, 60, 15⟩) ∧
    (∀ r, renderText [("message", JVal.jstr m), ("max_chars", JVal.jint 16)] =
        .ok r → r.lines.length ≤ 4) ∧
    renderText [("message", JVal.jstr m)] =
      renderText [("message", JVal.jstr m), ("max_chars", JVal.jint 16)] ∧
    (pyStrip m = "" →
      renderText [("message", JVal.jstr m), ("max_chars", JVal.jint 16)] =
        .ok ⟨["Hello from ESP32", "!"], 60, 15⟩) ∧
    ((pyStrip m).length = 40 →
      ∃ l1 l2 l3,
        renderText [("message", JVal.jstr m), ("max_chars", JVal.jint 16)] =
          .ok ⟨[l1, l2, l3], 60, 15⟩ ∧
        l1.length = 16 ∧ l2.length = 16 ∧ l3.length = 8 ∧
        l1 ++ l2 ++ l3 = pyStrip m) := by
  have hr := renderText_eq [("message", JVal.jstr m), ("max_chars", JVal.jint 16)]
    m 16 rfl rfl (by omega)
  have hr2 := renderText_eq [("message", JVal.jstr m)] m 16 rfl rfl (by omega)
  refine ⟨fun params w hm hw hpos => renderText_eq params m w hm hw hpos,
    ?_, hr2.trans hr.symm, ?_, ?_⟩
  · intro r h
    rw [hr] at h
    injection h with h'
    rw [← h']
    calc (((sliceChunks (16 : Int).toNat
          (if pyStrip m = "" then "Hello from ESP32!" else pyStrip m).data).map
            List.asString).take 4).length
        = 4 ⊓ ((sliceChunks (16 : Int).toNat
          (if pyStrip m = "" then "Hello from ESP32!" else pyStrip m).data).map
            List.asString).length := List.length_take _ _
      _ ≤ 4 := inf_le_left
  · intro he
    rw [hr, if_pos he]
    rfl
  · intro hlen
    have hne : ¬(pyStrip m = "") := by
      intro he
      rw [he] at hlen
      simp at hlen
    have hdl : (pyStrip m).data.length = 40 := hlen
    rw [hr, if_neg hne]
    rw [show ((16 : Int).toNat) = 16 from rfl]
    rw [sliceChunks_len40 (pyStrip m).data hdl]
    refine ⟨_, _, _, rfl, ?_, ?_, ?_, ?_⟩
    · show ((pyStrip m).data.take 16).length = 16
      rw [List.length_take, hdl]
      decide
    · show (((pyStrip m).data.drop 16).take 16).length = 16
      rw [List.length_take, List.length_drop, hdl]
      decide
    · show (((pyStrip m).data.drop 16).drop 16).length = 8
      rw [List.length_drop, List.length_drop, hdl]
    · have e1 : (List.take 16 (pyStrip m).data).asString ++
          (List.take 16 (List.drop 16 (pyStrip m).data)).asString ++
          (List.drop 16 (List.drop 16 (pyStrip m).data)).asString =
          ((List.take 16 (pyStrip m).data ++
            List.take 16 (List.drop 16 (pyStrip m).data)) ++
            List.drop 16 (List.drop 16 (pyStrip m).data)).asString := rfl
      rw [e1, List.append_assoc, List.take_append_drop, List.take_append_drop]
      rfl

set_option maxRecDepth 8000 in
theorem C6_witness :
    renderText
        [("message", JVal.jstr "0123456789012345678901234567890123456789"),
         ("max_chars", JVal.jint 8)] =
      .ok ⟨["01234567", "89012345", "67890123", "45678901"], 60, 15⟩ ∧
    ∃ l1 l2 l3,
      renderText [("message", JVal.jstr "0123456789012345678901234567890123456789"),
        ("max_chars", JVal.jint 16)] = .ok ⟨[l1, l2, l3], 60, 15⟩ ∧
      l1.length = 16 ∧ l2.length = 16 ∧ l3.length = 8 ∧
      l1 ++ l2 ++ l3 = pyStrip "0123456789012345678901234567890123456789" :=
  ⟨((C6_text_fixed_column_slicing
      "0123456789012345678901234567890123456789").1
      [("message", JVal.jstr "0123456789012345678901234567890123456789"),
       ("max_chars", JVal.jint 8)] 8 rfl rfl (by decide)).trans (by rfl),
   (C6_text_fixed_column_slicing
      "0123456789012345678901234567890123456789").2.2.2.2 (by decide)⟩

/-- The in-place update of `ON CONFLICT DO UPDATE` leaves every
per-device row count unchanged: the predicate is invariant under the
row replacement. -/
theorem upsertModule_comp_eq (d d' mtype : String) (params : JObj) (now : Int) :
    (fun r : ModuleRow => r.device_id == d') ∘
      (fun r : ModuleRow =>
        if r.device_id == d then ⟨d, mtype, params, now⟩ else r) =
      fun r : ModuleRow => r.device_id == d' := by
  funext r
  simp only [Function.comp]
  by_cases h : r.device_id = d
  · simp [h]
  · simp [h]

/-- After an upsert for device `d`, the first (unique) row for `d` is
exactly the freshly written config: full replacement, no merge. -/
theorem upsertModule_find? (rows : List ModuleRow) (d mtype : String)
    (params : JObj) (now : Int) :
    (upsertModule rows d mtype params now).find?
        (fun r => r.device_id == d) = some ⟨d, mtype, params, now⟩ := by
  unfold upsertModule
  by_cases h : rows.any (fun r => r.device_id == d)
  · rw [if_pos h]
    induction rows with
    | nil => simp at h
    | cons a l ih =>
      by_cases ha : a.device_id = d
      · simp [List.find?_cons, ha]
      · have h' : l.any (fun r => r.device_id == d) = true := by
          simp only [List.any_cons] at h
          simpa [ha] using h
        simpa [List.find?_cons, ha] using ih h'
  · rw [if_neg h]
    rw [List.find?_append]
    have hn : rows.find? (fun r => r.device_id == d) = none := by
      rw [List.find?_eq_none]
      intro x hx hpx
      exact h (List.any_of_mem hx hpx)
    rw [hn]
    simp

/-- The upsert keeps every per-device row count at most the max of 1 and
its previous value: the primary-key invariant "at most one config row per
device" is preserved. -/
theorem upsertModule_countP (rows : List ModuleRow) (d mtype : String)
    (params : JObj) (now : Int) (d' : String) :
    (upsertModule rows d mtype params now).countP
        (fun r => r.device_id == d') ≤
      max 1 (rows.countP (fun r => r.device_id == d')) := by
  unfold upsertModule
  by_cases h : rows.any (fun r => r.device_id == d)
  · rw [if_pos h, List.countP_map, upsertModule_comp_eq]
    exact le_max_right _ _
  · rw [if_neg h, List.countP_append]
    by_cases hd : d' = d
    · have h0 : rows.countP (fun r => r.device_id == d') = 0 := by
        rw [List.countP_eq_zero]
        intro x hx hpx
        apply h
        refine List.any_of_mem hx ?_
        rw [hd] at hpx
        exact hpx
      rw [h0]
      have h1 : List.countP (fun r => r.device_id == d')
          [(⟨d, mtype, params, now⟩ : ModuleRow)] ≤ 1 := by
        rw [List.countP_cons, List.countP_nil]
        split <;> omega
      omega
    · have h1 : List.countP (fun r => r.device_id == d')
          [(⟨d, mtype, params, now⟩ : ModuleRow)] = 0 := by
        rw [List.countP_eq_zero]
        intro x hx hpx
        simp at hx
        rw [hx] at hpx
        simp at hpx
        exact hd (hpx.symm)
      rw [h1]
      omega

/-- C8: a successful `set_module` for a device followed immediately by
`device_config` with that device's current token renders from the newly
stored type and params; the stored config is fully replaced (the row for
the device is exactly the new one, no merge), the device table is
untouched, and the at-most-one-config-row-per-device invariant is
preserved. -/
theorem C8_set_then_read_fresh (db db' : DB) (now : Int)
    (did mtype tok : String) (params : JObj) (sess : Option String)
    (env : Env) (drow : DeviceRow)
    (hset : set_module db now did mtype params sess = (db', .ok ()))
    (hdev : db.device.find? (fun d => d.device_token == tok) = some drow)
    (hid : drow.id = did) :
    db'.device = db.device ∧
    db'.moduleTbl.find? (fun r => r.device_id == did) =
      some ⟨did, mtype, params, now⟩ ∧
    device_config db' env tok =
      .ok (renderBoundary (renderModuleBody mtype params env)) ∧
    (∀ d', db.moduleTbl.countP (fun r => r.device_id == d') ≤ 1 →
      db'.moduleTbl.countP (fun r => r.device_id == d') ≤ 1) := by
  unfold set_module at hset
  cases hs : get_session_device_id db now sess with
  | error e =>
    simp only [hs] at hset
    exact absurd (congrArg Prod.snd hset) (by simp)
  | ok sdid =>
    simp only [hs] at hset
    by_cases h1 : sdid ≠ did
    · simp only [if_pos h1] at hset
      exact absurd (congrArg Prod.snd hset) (by simp)
    · simp only [if_neg h1] at hset
      by_cases h2 : ¬(mtype = "text" ∨ mtype = "btc_price" ∨ mtype = "weather")
      · simp only [if_pos h2] at hset
        exact absurd (congrArg Prod.snd hset) (by simp)
      · simp only [if_neg h2] at hset
        have hdb' : db' = {db with
            moduleTbl := upsertModule db.moduleTbl did mtype params now} :=
          (congrArg Prod.fst hset).symm
        subst hdb'
        refine ⟨rfl, upsertModule_find? _ _ _ _ _, ?_, ?_⟩
        · unfold device_config
          simp only [hdev]
          rw [hid, upsertModule_find?]
        · intro d' hle
          have := upsertModule_countP db.moduleTbl did mtype params now d'
          have hmax : max 1 (db.moduleTbl.countP
              (fun r => r.device_id == d')) = 1 :=
            Nat.max_eq_left hle
          rw [hmax] at this
          exact this

theorem C8_witness :
    device_config
      (set_module dbEx 100 "dev_1" "text" [("message", JVal.jstr "hi")]
        (some "sessA")).1 envDown "tokA" =
      .ok (renderBoundary (renderModuleBody "text"
        [("message", JVal.jstr "hi")] envDown)) :=
  (C8_set_then_read_fresh dbEx
    (set_module dbEx 100 "dev_1" "text" [("message", JVal.jstr "hi")]
      (some "sessA")).1
    100 "dev_1" "text" "tokA" [("message", JVal.jstr "hi")] (some "sessA")
    envDown ⟨"dev_1", "hw1", "tokA", 0⟩ rfl (by decide) rfl).2.2.1

/-- A pairing-table update that does not touch `pair_code` commutes with
the by-code lookup. -/
theorem find?_pairing_map (rows : List PairingRow) (f : PairingRow → PairingRow)
    (hf : ∀ p, (f p).pair_code = p.pair_code) (code : String) :
    (rows.map f).find? (fun p => p.pair_code == code) =
      (rows.find? (fun p => p.pair_code == code)).map f := by
  rw [List.find?_map]
  have he : ((fun p : PairingRow => p.pair_code == code) ∘ f) =
      fun p : PairingRow => p.pair_code == code := by
    funext p
    simp only [Function.comp]
    rw [hf]
  rw [he]

/-- `INSERT OR REPLACE` of a row with a different code does not change
the by-code lookup. -/
theorem find?_insertOrReplacePairing_ne (rows : List PairingRow)
    (r : PairingRow) (code : String) (h : ¬(r.pair_code = code)) :
    (insertOrReplacePairing rows r).find? (fun p => p.pair_code == code) =
      rows.find? (fun p => p.pair_code == code) := by
  unfold insertOrReplacePairing
  induction rows with
  | nil =>
    simp only [List.filter_nil, List.nil_append, List.find?]
    have hr : (r.pair_code == code) = false := by
      simp [h]
    simp [hr]
  | cons a l ih =>
    by_cases hq : a.pair_code = r.pair_code
    · have hpa : (a.pair_code == code) = false := by
        simp [hq, h]
      rw [List.filter_cons]
      rw [show (!(a.pair_code == r.pair_code)) = false by simp [hq]]
      simp only [Bool.false_eq_true, if_false]
      rw [ih, List.find?_cons, hpa]
    · rw [List.filter_cons]
      rw [show (!(a.pair_code == r.pair_code)) = true by simp [hq]]
      simp only [if_true, List.cons_append, List.find?_cons]
      by_cases hpa : a.pair_code = code
      · simp [hpa]
      · rw [show (a.pair_code == code) = false by simp [hpa]]
        exact ih

/-- When no existing row carries the new row's code, `INSERT OR REPLACE`
is a plain append. -/
theorem insertOrReplacePairing_fresh (rows : List PairingRow) (r : PairingRow)
    (h : rows.any (fun p => p.pair_code == r.pair_code) = false) :
    insertOrReplacePairing rows r = rows ++ [r] := by
  unfold insertOrReplacePairing
  congr 1
  induction rows with
  | nil => rfl
  | cons a l ih =>
    simp only [List.any_cons, Bool.or_eq_false_iff] at h
    rw [List.filter_cons]
    rw [show (!(a.pair_code == r.pair_code)) = true by simp [h.1]]
    simp only [if_true]
    rw [ih h.2]

/-- The code returned by the draw loop collides with no pairing row. -/
theorem firstFreeCode_not_any (pairing : List PairingRow) :
    ∀ codes c, firstFreeCode pairing codes = some c →
      pairing.any (fun p => p.pair_code == c) = false := by
  intro codes
  induction codes with
  | nil => intro c h; exact absurd h (by simp [firstFreeCode])
  | cons c0 rest ih =>
    intro c h
    unfold firstFreeCode at h
    by_cases h0 : pairing.any (fun p => p.pair_code == c0) = true
    · rw [if_pos h0] at h
      exact ih c h
    · rw [if_neg h0] at h
      injection h with h'
      rw [← h']
      exact Bool.eq_false_iff.mpr h0

/-- If every draw collides with some pairing row, the loop exhausts. -/
theorem firstFreeCode_all_collide (pairing : List PairingRow)
    (codes : List String)
    (h : ∀ c ∈ codes, pairing.any (fun p => p.pair_code == c) = true) :
    firstFreeCode pairing codes = none := by
  induction codes with
  | nil => rfl
  | cons c0 rest ih =>
    unfold firstFreeCode
    rw [if_pos (h c0 (List.mem_cons_self c0 rest))]
    exact ih (fun c hc => h c (List.mem_cons_of_mem c0 hc))

/-- `set_module` never touches the pairing table. -/
theorem set_module_pairing (db : DB) (now : Int) (did mtype : String)
    (params : JObj) (sess : Option String) :
    ((set_module db now did mtype params sess).1).pairing = db.pairing := by
  unfold set_module
  cases get_session_device_id db now sess with
  | error e => rfl
  | ok sdid =>
    by_cases h1 : sdid ≠ did
    · simp [h1]
    · simp only [if_neg h1]
      by_cases h2 : ¬(mtype = "text" ∨ mtype = "btc_price" ∨ mtype = "weather")
      · simp [h2]
      · simp [h2]

/-- Rewrite of `pair_start` when the draw loop exhausts: the error path
commits nothing. -/
theorem pair_start_none (db : DB) (now : Int) (freshId freshTok : String)
    (codes : List String) (hw : String)
    (hc : firstFreeCode db.pairing codes = none) :
    pair_start db now freshId freshTok codes hw =
      (db, .error ⟨500, "Database error"⟩) := by
  simp only [pair_start, hc]

/-- Rewrite of `pair_start` on a successful draw. -/
theorem pair_start_some (db : DB) (now : Int) (freshId freshTok : String)
    (codes : List String) (hw : String) (c : String)
    (hc : firstFreeCode db.pairing codes = some c) :
    pair_start db now freshId freshTok codes hw =
      ({db with
          device := rotateToken (pairStartBaseRows db now freshId hw)
            (pairStartDeviceId db freshId hw) freshTok,
          pairing := insertOrReplacePairing db.pairing
            ⟨c, pairStartDeviceId db freshId hw, now + PAIR_TTL_SECONDS, none⟩},
       .ok ⟨c, freshTok, pairStartDeviceId db freshId hw, PAIR_TTL_SECONDS⟩) := by
  simp only [pair_start, hc]

/-- Rewrite of `pair_claim` when no row carries the code. -/
theorem pair_claim_invalid (db : DB) (now : Int) (tok code : String)
    (hfind : db.pairing.find? (fun p => p.pair_code == code) = none) :
    pair_claim db now tok code = (db, .error ⟨400, "Invalid code"⟩) := by
  simp only [pair_claim, hfind]

/-- Rewrite of `pair_claim` on an already-claimed row. -/
theorem pair_claim_claimed (db : DB) (now t : Int) (tok code : String)
    (row : PairingRow)
    (hfind : db.pairing.find? (fun p => p.pair_code == code) = some row)
    (hcl : row.claimed_at = some t) :
    pair_claim db now tok code =
      (db, .error ⟨400, "Code already claimed"⟩) := by
  simp only [pair_claim, hfind, hcl]

/-- Rewrite of `pair_claim` on an expired row. -/
theorem pair_claim_expired (db : DB) (now : Int) (tok code : String)
    (row : PairingRow)
    (hfind : db.pairing.find? (fun p => p.pair_code == code) = some row)
    (hcl : row.claimed_at = none) (hexp : row.expires_at < now) :
    pair_claim db now tok code = (db, .error ⟨400, "Code expired"⟩) := by
  simp only [pair_claim, hfind, hcl, if_pos hexp]

/-- Rewrite of `pair_claim` on the success path. -/
theorem pair_claim_success_eq (db : DB) (now : Int) (tok code : String)
    (row : PairingRow)
    (hfind : db.pairing.find? (fun p => p.pair_code == code) = some row)
    (hcl : row.claimed_at = none) (hexp : ¬(row.expires_at < now)) :
    pair_claim db now tok code =
      ({db with
          session := db.session ++
            [⟨tok, row.device_id, now + SESSION_TTL_MINUTES * 60⟩],
          pairing := db.pairing.map (fun p =>
            if p.pair_code == code then {p with claimed_at := some now}
            else p)},
       .ok ⟨row.device_id⟩) := by
  simp only [pair_claim, hfind, hcl, if_neg hexp]

/-- A claimed pairing row survives any single later request: the row for
its code still exists and is still claimed. -/
theorem claimed_persists_step (db db' : DB) (hstep : Step db db')
    (code : String) (r : PairingRow)
    (hfind : db.pairing.find? (fun p => p.pair_code == code) = some r)
    (hcl : r.claimed_at ≠ none) :
    ∃ r', db'.pairing.find? (fun p => p.pair_code == code) = some r' ∧
      r'.claimed_at ≠ none := by
  cases hstep with
  | start now freshId freshTok codes hw =>
    cases hc : firstFreeCode db.pairing codes with
    | none =>
      simp only [pair_start_none db now freshId freshTok codes hw hc]
      exact ⟨r, hfind, hcl⟩
    | some c =>
      simp only [pair_start_some db now freshId freshTok codes hw c hc]
      have hany := firstFreeCode_not_any db.pairing codes c hc
      have hcne : ¬((⟨c, pairStartDeviceId db freshId hw,
          now + PAIR_TTL_SECONDS, none⟩ : PairingRow).pair_code = code) := by
        show ¬(c = code)
        intro he
        have hmem := List.mem_of_find?_eq_some hfind
        have hpr := List.find?_some hfind
        have htrue : db.pairing.any (fun p => p.pair_code == c) = true := by
          rw [he]
          exact List.any_of_mem hmem hpr
        rw [htrue] at hany
        cases hany
      rw [find?_insertOrReplacePairing_ne db.pairing _ code hcne]
      exact ⟨r, hfind, hcl⟩
  | claim now sessTok code' =>
    cases hf : db.pairing.find? (fun p => p.pair_code == code') with
    | none =>
      simp only [pair_claim_invalid db now sessTok code' hf]
      exact ⟨r, hfind, hcl⟩
    | some row =>
      cases hcl' : row.claimed_at with
      | some t =>
        simp only [pair_claim_claimed db now t sessTok code' row hf hcl']
        exact ⟨r, hfind, hcl⟩
      | none =>
        by_cases hexp : row.expires_at < now
        · simp only [pair_claim_expired db now sessTok code' row hf hcl' hexp]
          exact ⟨r, hfind, hcl⟩
        · simp only [pair_claim_success_eq db now sessTok code' row hf hcl'
            hexp]
          rw [find?_pairing_map db.pairing
            (fun p => if p.pair_code == code'
              then {p with claimed_at := some now} else p)
            (fun p => by by_cases hb : (p.pair_code == code') = true <;>
              simp [hb]) code]
          rw [hfind]
          refine ⟨_, rfl, ?_⟩
          by_cases hrc : (r.pair_code == code') = true
          · simp [hrc]
          · simp only [Bool.not_eq_true] at hrc
            simp [hrc]
            exact hcl
  | setmod now did mtype params sess =>
    rw [set_module_pairing]
    exact ⟨r, hfind, hcl⟩

/-- A claimed pairing row survives any interleaving of later requests. -/
theorem claimed_persists (db db' : DB) (hsteps : Steps db db')
    (code : String) (r : PairingRow)
    (hfind : db.pairing.find? (fun p => p.pair_code == code) = some r)
    (hcl : r.claimed_at ≠ none) :
    ∃ r', db'.pairing.find? (fun p => p.pair_code == code) = some r' ∧
      r'.claimed_at ≠ none := by
  induction hsteps with
  | refl => exact ⟨r, hfind, hcl⟩
  | tail hab hbc ih =>
    obtain ⟨r1, hf1, hc1⟩ := ih
    exact claimed_persists_step _ _ hbc code r1 hf1 hc1

/-- C1: `pair_claim` fails with "Invalid code" when no pairing row
carries the code, "Code already claimed" when the row is already claimed,
and "Code expired" when `now` is past `expires_at`; each failure returns
the database unchanged (no session created, pairing untouched), and after
one successful claim every later claim of the same code — across any
interleaving of later requests — fails with "Code already claimed". -/
theorem C1_pair_claim_validation (db : DB) (now : Int) (tok code : String) :
    ((∀ p ∈ db.pairing, p.pair_code ≠ code) →
      pair_claim db now tok code = (db, .error ⟨400, "Invalid code"⟩)) ∧
    (∀ row t, db.pairing.find? (fun p => p.pair_code == code) = some row →
      row.claimed_at = some t →
      pair_claim db now tok code =
        (db, .error ⟨400, "Code already claimed"⟩)) ∧
    (∀ row, db.pairing.find? (fun p => p.pair_code == code) = some row →
      row.claimed_at = none → row.expires_at < now →
      pair_claim db now tok code = (db, .error ⟨400, "Code expired"⟩)) ∧
    (∀ db1 out, pair_claim db now tok code = (db1, .ok out) →
      ∀ db2, Steps db1 db2 → ∀ (now2 : Int) (tok2 : String),
        pair_claim db2 now2 tok2 code =
          (db2, .error ⟨400, "Code already claimed"⟩)) := by
  refine ⟨?_, ?_, ?_, ?_⟩
  · intro h
    have hnone : db.pairing.find? (fun p => p.pair_code == code) = none := by
      rw [List.find?_eq_none]
      intro x hx
      simpa using h x hx
    exact pair_claim_invalid db now tok code hnone
  · intro row t hf hcl
    exact pair_claim_claimed db now t tok code row hf hcl
  · intro row hf hcl hexp
    exact pair_claim_expired db now tok code row hf hcl hexp
  · intro db1 out h db2 hsteps now2 tok2
    cases hf : db.pairing.find? (fun p => p.pair_code == code) with
    | none =>
      rw [pair_claim_invalid db now tok code hf] at h
      exact absurd (congrArg Prod.snd h) (by simp)
    | some row =>
      cases hcl : row.claimed_at with
      | some t =>
        rw [pair_claim_claimed db now t tok code row hf hcl] at h
        exact absurd (congrArg Prod.snd h) (by simp)
      | none =>
        by_cases hexp : row.expires_at < now
        · rw [pair_claim_expired db now tok code row hf hcl hexp] at h
          exact absurd (congrArg Prod.snd h) (by simp)
        · rw [pair_claim_success_eq db now tok code row hf hcl hexp] at h
          have hdb1 : ({db with
              session := db.session ++
                [⟨tok, row.device_id, now + SESSION_TTL_MINUTES * 60⟩],
              pairing := db.pairing.map (fun p =>
                if p.pair_code == code then {p with claimed_at := some now}
                else p)} : DB) = db1 := congrArg Prod.fst h
          have hprc := List.find?_some hf
          have hfind1 : db1.pairing.find?
              (fun p => p.pair_code == code) =
              some {row with claimed_at := some now} := by
            rw [← hdb1]
            show (db.pairing.map (fun p =>
              if p.pair_code == code then {p with claimed_at := some now}
              else p)).find? (fun p => p.pair_code == code) = _
            rw [find?_pairing_map db.pairing
              (fun p => if p.pair_code == code
                then {p with claimed_at := some now} else p)
              (fun p => by by_cases hb : (p.pair_code == code) = true <;>
                simp [hb]) code]
            rw [hf, Option.map_some']
            rw [if_pos hprc]
          obtain ⟨r2, hf2, hc2⟩ := claimed_persists db1 db2 hsteps code
            {row with claimed_at := some now} hfind1 (by simp)
          cases hr2 : r2.claimed_at with
          | none => exact absurd hr2 hc2
          | some t2 => exact pair_claim_claimed db2 now2 t2 tok2 code r2 hf2 hr2

set_option maxRecDepth 4000 in
theorem C1_witness :
    pair_claim dbEx 100 "s1" "999999" =
      (dbEx, .error ⟨400, "Invalid code"⟩) ∧
    pair_claim dbEx 100 "s1" "222222" =
      (dbEx, .error ⟨400, "Code already claimed"⟩) ∧
    pair_claim dbEx 100 "s1" "333333" =
      (dbEx, .error ⟨400, "Code expired"⟩) ∧
    pair_claim (pair_claim dbEx 100 "s1" "111111").1 200 "s2" "111111" =
      ((pair_claim dbEx 100 "s1" "111111").1,
        .error ⟨400, "Code already claimed"⟩) :=
  ⟨(C1_pair_claim_validation dbEx 100 "s1" "999999").1 (by decide),
   (C1_pair_claim_validation dbEx 100 "s1" "222222").2.1
     ⟨"222222", "dev_1", 1000, some 50⟩ 50 (by decide) rfl,
   (C1_pair_claim_validation dbEx 100 "s1" "333333").2.2.1
     ⟨"333333", "dev_2", 10, none⟩ (by decide) rfl (by decide),
   (C1_pair_claim_validation dbEx 100 "s1" "111111").2.2.2
     (pair_claim dbEx 100 "s1" "111111").1 ⟨"dev_1"⟩ rfl
     (pair_claim dbEx 100 "s1" "111111").1 Relation.ReflTransGen.refl
     200 "s2"⟩

/-- C7: `pair_start` re-draws (the attempt is discarded and the next draw
used) whenever the drawn code collides with an existing unclaimed,
unexpired pairing row; it runs a bounded number of draws (10 ≥ 5); a
returned code is unique among currently-unclaimed, non-expired pairings —
on success the pairing row is purely appended, replacing nothing — and if
every draw collides the endpoint fails with the capacity error surfaced
as a 500 server error with the database unchanged. -/
theorem C7_pair_code_allocation (db : DB) (now : Int)
    (freshId freshTok hw : String) :
    5 ≤ PAIR_CODE_ATTEMPTS ∧
    (∀ (c : String) (rest : List String),
      (∃ p ∈ db.pairing, p.pair_code = c ∧ p.claimed_at = none ∧
        ¬(p.expires_at < now)) →
      pair_start db now freshId freshTok (c :: rest) hw =
        pair_start db now freshId freshTok rest hw) ∧
    (∀ (codes : List String) (db' : DB) (out : PairStartOut),
      pair_start db now freshId freshTok codes hw = (db', .ok out) →
      (∀ p ∈ db.pairing, p.claimed_at = none → ¬(p.expires_at < now) →
        p.pair_code ≠ out.pair_code) ∧
      db'.pairing = db.pairing ++
        [⟨out.pair_code, out.device_id, now + PAIR_TTL_SECONDS, none⟩]) ∧
    (∀ codes : List String, codes.length = PAIR_CODE_ATTEMPTS →
      (∀ c ∈ codes, ∃ p ∈ db.pairing, p.pair_code = c ∧
        p.claimed_at = none ∧ ¬(p.expires_at < now)) →
      pair_start db now freshId freshTok codes hw =
        (db, .error ⟨500, "Database error"⟩)) := by
  refine ⟨by decide, ?_, ?_, ?_⟩
  · intro c rest hcol
    obtain ⟨p, hp, hpc, -, -⟩ := hcol
    have hany : db.pairing.any (fun q => q.pair_code == c) = true :=
      List.any_of_mem hp (by simp [hpc])
    have hskip : firstFreeCode db.pairing (c :: rest) =
        firstFreeCode db.pairing rest := by
      unfold firstFreeCode
      rw [if_pos hany]
      cases rest <;> rfl
    simp only [pair_start, hskip]
  · intro codes db' out hok
    cases hc : firstFreeCode db.pairing codes with
    | none =>
      rw [pair_start_none db now freshId freshTok codes hw hc] at hok
      exact absurd (congrArg Prod.snd hok) (by simp)
    | some c =>
      rw [pair_start_some db now freshId freshTok codes hw c hc] at hok
      have hany := firstFreeCode_not_any db.pairing codes c hc
      rw [List.any_eq_false] at hany
      have hout : (PairStartOut.mk c freshTok
          (pairStartDeviceId db freshId hw) PAIR_TTL_SECONDS) = out := by
        have := congrArg Prod.snd hok
        simpa using this
      have hdb' : ({db with
          device := rotateToken (pairStartBaseRows db now freshId hw)
            (pairStartDeviceId db freshId hw) freshTok,
          pairing := insertOrReplacePairing db.pairing
            ⟨c, pairStartDeviceId db freshId hw, now + PAIR_TTL_SECONDS,
              none⟩} : DB) = db' := congrArg Prod.fst hok
      constructor
      · intro p hp hcl hexp he
        rw [← hout] at he
        exact hany p hp (by simp [he])
      · rw [← hdb', ← hout]
        show insertOrReplacePairing db.pairing _ = _
        rw [insertOrReplacePairing_fresh db.pairing _ (by
          rw [List.any_eq_false]
          intro p hp
          exact hany p hp)]
  · intro codes hlen hall
    have hnone : firstFreeCode db.pairing codes = none := by
      apply firstFreeCode_all_collide
      intro c hcmem
      obtain ⟨p, hp, hpc, -, -⟩ := hall c hcmem
      exact List.any_of_mem hp (by simp [hpc])
    exact pair_start_none db now freshId freshTok codes hw hnone

theorem C7_witness :
    pair_start dbEx 100 "dev_9" "tokF" ("111111" :: ["123456"]) "hw1" =
      pair_start dbEx 100 "dev_9" "tokF" ["123456"] "hw1" ∧
    pair_start dbCap 100 "dev_9" "tokF" codesEx "hw9" =
      (dbCap, .error ⟨500, "Database error"⟩) :=
  ⟨(C7_pair_code_allocation dbEx 100 "dev_9" "tokF" "hw1").2.1
      "111111" ["123456"]
      ⟨⟨"111111", "dev_1", 1000, none⟩, by decide, rfl, rfl, by decide⟩,
   (C7_pair_code_allocation dbCap 100 "dev_9" "tokF" "hw9").2.2.2
      codesEx (by decide) (by decide)⟩

/-- Token rotation commutes with the by-hardware_uid lookup: the update
touches only `device_token`. -/
theorem find?_rotateToken_hw (rows : List DeviceRow) (did tok hw : String) :
    (rotateToken rows did tok).find? (fun d => d.hardware_uid == hw) =
      (rows.find? (fun d => d.hardware_uid == hw)).map (fun d =>
        if d.id == did then {d with device_token := tok} else d) := by
  unfold rotateToken
  rw [List.find?_map]
  have he : ((fun d : DeviceRow => d.hardware_uid == hw) ∘ (fun d =>
      if d.id == did then {d with device_token := tok} else d)) =
      fun d : DeviceRow => d.hardware_uid == hw := by
    funext d
    simp only [Function.comp]
    by_cases hb : (d.id == did) = true <;> simp [hb]
  rw [he]

/-- C10: `pair_start` touches the device table minimally. For a known
`hardware_uid` it only rewrites `device_token` on the row carrying that
device's id (`id`, `hardware_uid` and `created_at` are kept by the update
function, and every row with a different id is returned unchanged); for a
first-seen `hardware_uid` with a fresh generated id it appends exactly
one new row and leaves every existing row untouched. -/
theorem C10_pair_start_device_frame (db : DB) (now : Int)
    (freshId freshTok : String) (codes : List String) (hw : String)
    (db' : DB) (out : PairStartOut)
    (hok : pair_start db now freshId freshTok codes hw = (db', .ok out)) :
    (∀ r, db.device.find? (fun d => d.hardware_uid == hw) = some r →
      db'.device = db.device.map (fun d =>
        if d.id == r.id then {d with device_token := freshTok} else d)) ∧
    (db.device.find? (fun d => d.hardware_uid == hw) = none →
      (∀ d ∈ db.device, d.id ≠ freshId) →
      db'.device = db.device ++ [⟨freshId, hw, freshTok, now⟩]) := by
  cases hc : firstFreeCode db.pairing codes with
  | none =>
    rw [pair_start_none db now freshId freshTok codes hw hc] at hok
    exact absurd (congrArg Prod.snd hok) (by simp)
  | some c =>
    rw [pair_start_some db now freshId freshTok codes hw c hc] at hok
    have hdb' : ({db with
        device := rotateToken (pairStartBaseRows db now freshId hw)
          (pairStartDeviceId db freshId hw) freshTok,
        pairing := insertOrReplacePairing db.pairing
          ⟨c, pairStartDeviceId db freshId hw, now + PAIR_TTL_SECONDS,
            none⟩} : DB) = db' := congrArg Prod.fst hok
    have hdev : db'.device = rotateToken (pairStartBaseRows db now freshId hw)
        (pairStartDeviceId db freshId hw) freshTok := by
      rw [← hdb']
    constructor
    · intro r hr
      rw [hdev]
      unfold pairStartBaseRows pairStartDeviceId rotateToken
      rw [hr]
    · intro hr hfresh
      rw [hdev]
      unfold pairStartBaseRows pairStartDeviceId rotateToken
      rw [hr]
      rw [List.map_append]
      have h1 : db.device.map (fun d =>
          if d.id == freshId then {d with device_token := freshTok} else d) =
          db.device := by
        have : ∀ d ∈ db.device, (if d.id == freshId
            then {d with device_token := freshTok} else d) = id d := by
          intro d hd
          rw [if_neg (by simp [hfresh d hd])]
          rfl
        rw [List.map_congr_left this, List.map_id]
      rw [h1]
      have h2 : ([(⟨freshId, hw, "", now⟩ : DeviceRow)].map (fun d =>
          if d.id == freshId then {d with device_token := freshTok} else d)) =
          [⟨freshId, hw, freshTok, now⟩] := by
        simp
      rw [h2]

theorem C10_witness :
    (pair_start dbEx 100 "dev_9" "tokF" ["123456"] "hw1").1.device =
      dbEx.device.map (fun d =>
        if d.id == "dev_1" then {d with device_token := "tokF"} else d) ∧
    (pair_start dbEx 100 "dev_9" "tokF" ["123456"] "hw9").1.device =
      dbEx.device ++ [⟨"dev_9", "hw9", "tokF", 100⟩] := by
  constructor
  · exact (C10_pair_start_device_frame dbEx 100 "dev_9" "tokF" ["123456"]
      "hw1" (pair_start dbEx 100 "dev_9" "tokF" ["123456"] "hw1").1
      ⟨"123456", "tokF", "dev_1", 300⟩ rfl).1
      ⟨"dev_1", "hw1", "tokA", 0⟩ (by decide)
  · exact (C10_pair_start_device_frame dbEx 100 "dev_9" "tokF" ["123456"]
      "hw9" (pair_start dbEx 100 "dev_9" "tokF" ["123456"] "hw9").1
      ⟨"123456", "tokF", "dev_9", 300⟩ rfl).2 (by decide) (by decide)

/-- A row of the post-find-or-create device table is either a
pre-existing row or the freshly inserted row (whose id is the resolved
device id and whose token is still empty). -/
theorem mem_pairStartBaseRows (db : DB) (now : Int) (freshId hw : String)
    (d : DeviceRow) (hd : d ∈ pairStartBaseRows db now freshId hw) :
    d ∈ db.device ∨
      (d.id = pairStartDeviceId db freshId hw ∧ d.device_token = "") := by
  unfold pairStartBaseRows at hd
  unfold pairStartDeviceId
  cases hr : db.device.find? (fun x => x.hardware_uid == hw) with
  | some r =>
    rw [hr] at hd
    exact Or.inl hd
  | none =>
    rw [hr] at hd
    rcases List.mem_append.mp hd with hin | hnew
    · exact Or.inl hin
    · rw [List.mem_singleton] at hnew
      rw [hnew]
      exact Or.inr ⟨rfl, rfl⟩

/-- C2: two `pair_start` calls for the same `hardware_uid` return the
same `device_id` but the two fresh tokens; afterwards the device row
holds only the second token, so a `device_config` request authenticated
with the first token fails with the 401 invalid-device-token error. -/
theorem C2_token_rotation (db db1 db2 : DB) (now1 now2 : Int)
    (id1 id2 tok1 tok2 hw : String) (codes1 codes2 : List String)
    (o1 o2 : PairStartOut)
    (h1 : pair_start db now1 id1 tok1 codes1 hw = (db1, .ok o1))
    (h2 : pair_start db1 now2 id2 tok2 codes2 hw = (db2, .ok o2))
    (hfresh : ∀ d ∈ db.device, d.device_token ≠ tok1)
    (hne : tok1 ≠ tok2) :
    o1.device_id = o2.device_id ∧
    o1.device_token = tok1 ∧ o2.device_token = tok2 ∧
    o1.device_token ≠ o2.device_token ∧
    (∀ env : Env, device_config db2 env o1.device_token =
      .error ⟨401, "Invalid device token"⟩) := by
  cases hc1 : firstFreeCode db.pairing codes1 with
  | none =>
    rw [pair_start_none db now1 id1 tok1 codes1 hw hc1] at h1
    exact absurd (congrArg Prod.snd h1) (by simp)
  | some c1 =>
  rw [pair_start_some db now1 id1 tok1 codes1 hw c1 hc1] at h1
  have hdb1 : ({db with
      device := rotateToken (pairStartBaseRows db now1 id1 hw)
        (pairStartDeviceId db id1 hw) tok1,
      pairing := insertOrReplacePairing db.pairing
        ⟨c1, pairStartDeviceId db id1 hw, now1 + PAIR_TTL_SECONDS,
          none⟩} : DB) = db1 := congrArg Prod.fst h1
  have ho1 : (PairStartOut.mk c1 tok1 (pairStartDeviceId db id1 hw)
      PAIR_TTL_SECONDS) = o1 := by simpa using congrArg Prod.snd h1
  have hdev1 : db1.device = rotateToken (pairStartBaseRows db now1 id1 hw)
      (pairStartDeviceId db id1 hw) tok1 := by rw [← hdb1]
  have hfind1 : ∃ s, db1.device.find? (fun d => d.hardware_uid == hw) =
      some s ∧ s.id = pairStartDeviceId db id1 hw := by
    rw [hdev1, find?_rotateToken_hw]
    cases hr : db.device.find? (fun d => d.hardware_uid == hw) with
    | some r =>
      rw [show pairStartBaseRows db now1 id1 hw = db.device by
        unfold pairStartBaseRows; rw [hr]]
      rw [hr, Option.map_some']
      refine ⟨_, rfl, ?_⟩
      rw [show pairStartDeviceId db id1 hw = r.id by
        unfold pairStartDeviceId; rw [hr]]
      by_cases hb : (r.id == r.id) = true <;> simp [hb]
    | none =>
      rw [show pairStartBaseRows db now1 id1 hw =
          db.device ++ [⟨id1, hw, "", now1⟩] by
        unfold pairStartBaseRows; rw [hr]]
      rw [List.find?_append, hr]
      rw [show List.find? (fun d : DeviceRow => d.hardware_uid == hw)
          ([⟨id1, hw, "", now1⟩] : List DeviceRow) =
          some ⟨id1, hw, "", now1⟩ from
        List.find?_cons_of_pos _ (by simp)]
      rw [Option.none_or, Option.map_some']
      rw [show pairStartDeviceId db id1 hw = id1 by
        unfold pairStartDeviceId; rw [hr]]
      refine ⟨_, rfl, ?_⟩
      by_cases hb : ((id1 : String) == id1) = true <;> simp [hb]
  obtain ⟨s, hs, hsid⟩ := hfind1
  cases hc2 : firstFreeCode db1.pairing codes2 with
  | none =>
    rw [pair_start_none db1 now2 id2 tok2 codes2 hw hc2] at h2
    exact absurd (congrArg Prod.snd h2) (by simp)
  | some c2 =>
  rw [pair_start_some db1 now2 id2 tok2 codes2 hw c2 hc2] at h2
  have hdb2 : ({db1 with
      device := rotateToken (pairStartBaseRows db1 now2 id2 hw)
        (pairStartDeviceId db1 id2 hw) tok2,
      pairing := insertOrReplacePairing db1.pairing
        ⟨c2, pairStartDeviceId db1 id2 hw, now2 + PAIR_TTL_SECONDS,
          none⟩} : DB) = db2 := congrArg Prod.fst h2
  have ho2 : (PairStartOut.mk c2 tok2 (pairStartDeviceId db1 id2 hw)
      PAIR_TTL_SECONDS) = o2 := by simpa using congrArg Prod.snd h2
  have hdid2 : pairStartDeviceId db1 id2 hw = s.id := by
    unfold pairStartDeviceId
    rw [hs]
  have hbase2 : pairStartBaseRows db1 now2 id2 hw = db1.device := by
    unfold pairStartBaseRows
    rw [hs]
  have hdev2 : db2.device = rotateToken db1.device s.id tok2 := by
    rw [← hdb2]
    show rotateToken (pairStartBaseRows db1 now2 id2 hw)
      (pairStartDeviceId db1 id2 hw) tok2 = _
    rw [hbase2, hdid2]
  have htok_all : ∀ d ∈ db2.device, ¬(d.device_token = tok1) := by
    intro d hd
    rw [hdev2, hdev1] at hd
    unfold rotateToken at hd
    rw [List.map_map] at hd
    obtain ⟨e0, he0, heq⟩ := List.mem_map.mp hd
    rw [← heq]
    simp only [Function.comp]
    by_cases hb : (e0.id == pairStartDeviceId db id1 hw) = true
    · rw [if_pos hb]
      have hb2 : (({e0 with device_token := tok1} : DeviceRow).id ==
          s.id) = true := by
        rw [hsid]
        exact hb
      rw [if_pos hb2]
      exact fun he => hne he.symm
    · rw [if_neg hb]
      have hb2 : (e0.id == s.id) = false := by
        rw [hsid]
        exact Bool.eq_false_iff.mpr hb
      rw [hb2]
      simp only [Bool.false_eq_true, if_false]
      rcases mem_pairStartBaseRows db now1 id1 hw e0 he0 with hin | ⟨hid, -⟩
      · exact hfresh e0 hin
      · exact absurd (by simp [hid]) hb
  refine ⟨?_, by rw [← ho1], by rw [← ho2], ?_, ?_⟩
  · rw [← ho1, ← ho2]
    show pairStartDeviceId db id1 hw = pairStartDeviceId db1 id2 hw
    rw [hdid2, hsid]
  · rw [← ho1, ← ho2]
    exact hne
  · intro env
    have hnone : db2.device.find?
        (fun d => d.device_token == o1.device_token) = none := by
      rw [List.find?_eq_none]
      intro d hd
      rw [← ho1]
      simpa using htok_all d hd
    unfold device_config
    rw [hnone]

set_option maxRecDepth 8000 in
theorem C2_witness :
    device_config
      (pair_start (pair_start dbEx 100 "dev_9" "tokF1" ["123456"] "hw1").1
        200 "dev_8" "tokF2" ["654321"] "hw1").1 envDown "tokF1" =
      .error ⟨401, "Invalid device token"⟩ := by
  have h := C2_token_rotation dbEx
    (pair_start dbEx 100 "dev_9" "tokF1" ["123456"] "hw1").1
    (pair_start (pair_start dbEx 100 "dev_9" "tokF1" ["123456"] "hw1").1
      200 "dev_8" "tokF2" ["654321"] "hw1").1
    100 200 "dev_9" "dev_8" "tokF1" "tokF2" "hw1" ["123456"] ["654321"]
    ⟨"123456", "tokF1", "dev_1", 300⟩ ⟨"654321", "tokF2", "dev_1", 300⟩
    rfl rfl (by decide) (by decide)
  exact h.2.2.2.2 envDown
